import Mathlib

/-!
Shallow embedding of the actionsum detection subsystem.

Sources embedded:
- `pkg/integrations/hybrid/detector.go` (hybrid resolver `Detector.GetActiveApp`,
  `Detector.getActiveAppFromWindow`)
- `pkg/integrations/process/detector.go` (`Detector.isGUIApp`, `getCommonGUIApps`,
  `Detector.scoreProcesses`, `Detector.GetActiveApp`)
- `pkg/integrations/wayland/detector.go` (`Detector.detectCompositor`, `parseWMClass`,
  `Detector.GetIdleInfo`, `Detector.getIdleTime`)
- the x11 detector file (`parseWMClass`, `Detector.GetIdleInfo`)

Modelling conventions: Go float64 score/confidence arithmetic is modelled over ℚ
(the constants 0.1/0.2/0.3/0.5/5/10 and their sums/comparisons used by the code are
order-faithful at these magnitudes); Go `time.Time` ages are modelled as ℚ seconds;
external effects (subprocess output, /proc reads, the separately queried focused
window) are modelled as explicit environment records; Go strings are modelled as
`String`/`List Char`. The `LastActivity`/`observedAt` time-stamp field of `AppInfo`
is omitted (no claim mentions it).
-/

/-- True when `sub` occurs as a contiguous run inside the second list. -/
def goContainsCore (sub : List Char) : List Char → Bool
  | [] => sub.isEmpty
  | x :: xs => sub.isPrefixOf (x :: xs) || goContainsCore sub xs

/-- Go `strings.Contains s sub`: `sub` occurs as a contiguous substring of `s`. -/
def goContains (s sub : String) : Bool :=
  goContainsCore sub.data s.data

/-- Go `strings.Split s sep` for a one-character separator `c`
(`Split "" c = [""]`, `Split "a=b" '=' = ["a", "b"]`). -/
def goSplitChar (c : Char) : List Char → List (List Char)
  | [] => [[]]
  | x :: xs =>
    if x = c then [] :: goSplitChar c xs
    else
      match goSplitChar c xs with
      | [] => [[x]]
      | y :: ys => (x :: y) :: ys

/-- Go `unicode.IsSpace` restricted to the ASCII whitespace it recognises. -/
def goIsSpace (c : Char) : Bool :=
  c = ' ' || c = '\t' || c = '\n' || c = '\r' || c = '\x0b' || c = '\x0c'

/-- Trim characters satisfying `p` from the left end. -/
def goTrimLeftBy (p : Char → Bool) (l : List Char) : List Char :=
  l.dropWhile p

/-- Trim characters satisfying `p` from the right end. -/
def goTrimRightBy (p : Char → Bool) (l : List Char) : List Char :=
  (l.reverse.dropWhile p).reverse

/-- Trim characters satisfying `p` from both ends. -/
def goTrimBy (p : Char → Bool) (l : List Char) : List Char :=
  goTrimRightBy p (goTrimLeftBy p l)

/-- Go `strings.TrimSpace` on a character list. -/
def goTrimSpace (l : List Char) : List Char :=
  goTrimBy goIsSpace l

/-- Go `strings.Trim l cutset`: drop characters of `cutset` from both ends. -/
def goTrimCutset (cut : List Char) (l : List Char) : List Char :=
  goTrimBy (fun c => cut.contains c) l

/-- Structure `WindowInfo` from pkg/window. -/
structure WindowInfo where
  appName : String
  windowTitle : String
  processName : String
  displayServer : String
deriving DecidableEq

/-- Structure `IdleInfo` from pkg/window. -/
structure IdleInfo where
  isIdle : Bool
  isLocked : Bool
  idleTime : Int
deriving DecidableEq

/-- Structure `AppInfo` from pkg/integrations/common (the `LastActivity` time stamp is omitted). -/
structure AppInfo where
  appName : String
  windowTitle : String
  processName : String
  pid : Nat
  confidence : ℚ
  detectionMethod : String
deriving DecidableEq

namespace X11

/-- x11 `parseWMClass` on character lists: split on `=`, take the second part,
trim space then quotes, split on `,`, take the last token, trim space then
quotes-and-spaces. Returns `[]` when there is no `=` (fewer than two parts). -/
def parseWMClassCore (output : List Char) : List Char :=
  match goSplitChar '=' output with
  | _ :: p1 :: _ =>
    let classInfo := goTrimCutset ['"'] (goTrimSpace p1)
    let classes := goSplitChar ',' classInfo
    match classes.getLast? with
    | some lastClass => goTrimCutset ['"', ' '] (goTrimSpace lastClass)
    | none => []
  | _ => []

/-- x11 `parseWMClass` on `String`. -/
def parseWMClass (output : String) : String :=
  ⟨parseWMClassCore output.data⟩

/-- x11 `Detector.GetIdleInfo`, parameterised by the idle seconds obtained from
`getIdleTime` and the lock heuristic: `isIdle := idleTime > idleThreshold` with
`const idleThreshold = 300`. -/
def GetIdleInfo (idleTime : Int) (isLocked : Bool) : IdleInfo :=
  let idleThreshold : Int := 300
  { isIdle := decide (idleTime > idleThreshold), isLocked := isLocked, idleTime := idleTime }

end X11

namespace Wayland

/-- wayland `parseWMClass` on character lists (same shape as the x11 one, except
the last token is trimmed with cutset `"\" "` without a preceding `TrimSpace`,
and a missing `=` is rejected by a `strings.Contains` guard). -/
def parseWMClassCore (output : List Char) : List Char :=
  if output.contains '=' then
    match goSplitChar '=' output with
    | _ :: p1 :: _ =>
      let classInfo := goTrimCutset ['"'] (goTrimSpace p1)
      let classes := goSplitChar ',' classInfo
      match classes.getLast? with
      | some lastClass => goTrimCutset ['"', ' '] lastClass
      | none => []
    | _ => []
  else []

/-- wayland `parseWMClass` on `String`. -/
def parseWMClass (output : String) : String :=
  ⟨parseWMClassCore output.data⟩

/-- The entries of the Go map `compositors` in `Detector.detectCompositor`
(process name paired with compositor name). -/
def compositorEntries : List (String × String) :=
  [("sway", "sway"), ("Hyprland", "hyprland"), ("wayfire", "wayfire"),
   ("river", "river"), ("gnome-shell", "gnome"), ("kwin_wayland", "kde")]

/-- Function `Detector.detectCompositor`: probe the entries in the iteration order `order`
(Go map iteration order is unspecified, so any permutation of
`compositorEntries` is a possible execution); `alive p` models `pgrep -x p`
succeeding. The first alive process wins; otherwise `"unknown"`. -/
def detectCompositor (order : List (String × String)) (alive : String → Bool) : String :=
  match order with
  | [] => "unknown"
  | e :: rest => if alive e.1 then e.2 else detectCompositor rest alive

/-- wayland `Detector.getIdleTime`: every control path returns 0. -/
def getIdleTime (_compositor : String) : Int := 0

/-- wayland `Detector.GetIdleInfo`: `isIdle := idleTime > idleThreshold` with
`const idleThreshold = 300` over the (always-zero) `getIdleTime` result. -/
def GetIdleInfo (compositor : String) (isLocked : Bool) : IdleInfo :=
  let idleTime := getIdleTime compositor
  { isIdle := decide (idleTime > 300), isLocked := isLocked, idleTime := idleTime }

end Wayland

namespace Process

/-- process `processInfo` as read by `readProcessInfo`: short command name from
`/proc/pid/stat`, full command line from `/proc/pid/cmdline`, and the raw
`/proc/pid/environ` contents (`none` models a failed read). -/
structure ProcInfo where
  pid : Nat
  name : String
  cmdline : String
  environ : Option String
deriving DecidableEq

/-- Allow-list `getCommonGUIApps`, verbatim from the source. -/
def getCommonGUIApps : List String :=
  ["firefox", "chrome", "chromium", "google-chrome", "brave", "opera", "vivaldi", "microsoft-edge",
   "code", "vscode", "sublime_text", "atom", "gedit", "vim", "nvim", "emacs",
   "gnome-terminal", "konsole", "terminator", "alacritty", "kitty", "wezterm", "tilix",
   "slack", "discord", "telegram", "signal", "zoom", "teams",
   "libreoffice", "soffice.bin", "writer", "calc", "impress",
   "vlc", "mpv", "spotify", "rhythmbox", "totem",
   "nautilus", "dolphin", "thunar", "nemo", "caja",
   "idea", "pycharm", "webstorm", "eclipse", "netbeans"]

/-- Predicate `Detector.isGUIApp`: true if the name equals, or the command line contains,
any allow-list entry, or else if the process environment contains `DISPLAY=` or
`WAYLAND_DISPLAY=`. There is no deny-list anywhere in this function. -/
def isGUIApp (guiApps : List String) (info : ProcInfo) : Bool :=
  guiApps.any (fun app => info.name == app || goContains info.cmdline app)
  || (match info.environ with
      | some environ => goContains environ "DISPLAY=" || goContains environ "WAYLAND_DISPLAY="
      | none => false)

/-- The recent-input-activity term of `Detector.scoreProcesses`:
`+0.5` if active within 1s, `+0.3` within 5s, `+0.1` within 30s, else 0;
`none` models a PID absent from the input monitor's map. -/
def activityBonus (age : Option ℚ) : ℚ :=
  match age with
  | some t => if t < 1 then 1/2 else if t < 5 then 3/10 else if t < 30 then 1/10 else 0
  | none => 0

/-- One candidate's score in `Detector.scoreProcesses`: base `0.3`, `+10` for the
enclosing terminal, `+5` for an ancestor, the activity term, and `+0.2` when the
candidate was re-observed within the last second. -/
def candidateScore (isTerminal isAncestor : Bool) (activityAge : Option ℚ) (seenAge : ℚ) : ℚ :=
  3/10 + (if isTerminal then 10 else 0) + (if isAncestor then 5 else 0)
    + activityBonus activityAge + (if seenAge < 1 then 1/5 else 0)

/-- The environment of one `Detector.GetActiveApp` call on a fresh detector:
the `/proc` table snapshot, the `findMyTerminal` result (0 when none), the set
of PIDs for which `isAncestorProcess` holds, per-PID ages (seconds since last
input activity / since `lastSeen`), and the external `getWindowTitleForPID`. -/
structure ScanEnv where
  procs : List ProcInfo
  myTerminalPID : Nat
  ancestorPIDs : List Nat
  activityAge : Nat → Option ℚ
  seenAge : Nat → ℚ
  windowTitleFor : Nat → String

/-- Scoring of `Detector.scoreProcesses` applied to one PID. -/
def scoreProc (env : ScanEnv) (pid : Nat) : ℚ :=
  candidateScore (pid == env.myTerminalPID) (env.ancestorPIDs.contains pid)
    (env.activityAge pid) (env.seenAge pid)

/-- Insert one scored candidate into a list sorted by descending score. -/
def insertScored (x : ProcInfo × ℚ) : List (ProcInfo × ℚ) → List (ProcInfo × ℚ)
  | [] => [x]
  | y :: ys => if y.2 < x.2 then x :: y :: ys else y :: insertScored x ys

/-- Sort scored candidates by descending score (the Go code uses an unstable
`sort.Slice` with `scored[i].score > scored[j].score`; ties are unordered there,
and none of the proved properties depends on tie order). -/
def sortScoredDesc : List (ProcInfo × ℚ) → List (ProcInfo × ℚ)
  | [] => []
  | x :: xs => insertScored x (sortScoredDesc xs)

/-- process `Detector.GetActiveApp` for one call on a fresh detector: scan the
table, keep the GUI candidates (`scanProcesses` + `isGUIApp`), score and rank
them, and build the `AppInfo` from the top candidate — `AppName` and
`ProcessName` are both `proc.name`, `Confidence` is the raw ranking score. -/
def GetActiveApp (env : ScanEnv) : Except String AppInfo :=
  let known := env.procs.filter (fun p => isGUIApp getCommonGUIApps p)
  let sorted := sortScoredDesc (known.map (fun p => (p, scoreProc env p.pid)))
  match sorted with
  | [] => Except.error "no GUI applications detected"
  | best :: _ =>
    Except.ok
      { appName := best.1.name, windowTitle := env.windowTitleFor best.1.pid,
        processName := best.1.name, pid := best.1.pid,
        confidence := best.2, detectionMethod := "process-based" }

end Process

namespace Hybrid

/-- The two external detector invocations a hybrid `GetActiveApp` call can make. -/
inductive Call where
  | windowQuery : Call
  | processQuery : Call
deriving DecidableEq, BEq

/-- The environment of one hybrid `Detector.GetActiveApp` call: whether a window
detector was constructed, its `IsAvailable()` answer, the results of its first
and second `GetFocusedWindow()` invocations (step 1 and the enhancement step
query separately), and the process detector's `GetActiveApp()` result. -/
structure HybridEnv where
  initialized : Bool
  hasWindowDetector : Bool
  windowAvailable : Bool
  windowQuery1 : Except String (Option WindowInfo)
  windowQuery2 : Except String (Option WindowInfo)
  processResult : Except String AppInfo

/-- What one hybrid `GetActiveApp` call produced: the returned value, the trace
of external detector invocations, and the `log.Printf` lines it emitted. -/
structure HybridOutcome where
  result : Except String AppInfo
  calls : List Call
  logLines : List String

/-- hybrid `Detector.getActiveAppFromWindow`: fail on a query error, a nil
window, or an empty/"Unknown" application name; otherwise build the result with
`Confidence: 1.0` and `DetectionMethod: "window"`. -/
def getActiveAppFromWindow (env : HybridEnv) : Except String AppInfo :=
  match env.windowQuery1 with
  | Except.error e => Except.error e
  | Except.ok none => Except.error "no valid window information"
  | Except.ok (some w) =>
    if w.appName = "" ∨ w.appName = "Unknown" then
      Except.error "no valid window information"
    else
      Except.ok
        { appName := w.appName, windowTitle := w.windowTitle,
          processName := w.processName, pid := 0,
          confidence := 1, detectionMethod := "window" }

/-- The enhancement step of hybrid `Detector.GetActiveApp` on a successful
process result: if the re-queried focused window's `AppName` equals the result's
`AppName` or its `ProcessName` equals the result's `ProcessName`, overwrite
`WindowTitle`, set `Confidence: 0.9` and `DetectionMethod: "hybrid"`; on any
other query outcome keep the process result unchanged. -/
def enhanceResult (q2 : Except String (Option WindowInfo)) (appInfo : AppInfo) : AppInfo :=
  match q2 with
  | Except.ok (some w) =>
    if w.appName = appInfo.appName ∨ w.processName = appInfo.processName then
      { appInfo with windowTitle := w.windowTitle, confidence := 9/10,
                     detectionMethod := "hybrid" }
    else appInfo
  | _ => appInfo

/-- The fallback half of hybrid `Detector.GetActiveApp`: invoke the process
detector once; on success run the enhancement step when a window detector
object exists (regardless of availability); on failure return the fixed error
`"all detection methods failed"` and log the underlying reasons. -/
def fallbackToProcess (env : HybridEnv) (calls0 : List Call) (windowErr : Option String) :
    HybridOutcome :=
  match env.processResult with
  | Except.ok appInfo =>
    if env.hasWindowDetector then
      { result := Except.ok (enhanceResult env.windowQuery2 appInfo),
        calls := calls0 ++ [Call.processQuery, Call.windowQuery], logLines := [] }
    else
      { result := Except.ok appInfo,
        calls := calls0 ++ [Call.processQuery], logLines := [] }
  | Except.error pErr =>
    { result := Except.error "all detection methods failed",
      calls := calls0 ++ [Call.processQuery],
      logLines :=
        match windowErr with
        | some wErr =>
          ["All detection methods failed - Window: " ++ wErr ++ ", Process: " ++ pErr]
        | none => ["Process detection failed: " ++ pErr] }

/-- hybrid `Detector.GetActiveApp`: guard on `initialized`; try the window path
first when the window detector exists and reports available; a window success is
terminal; otherwise fall back to the process detector. -/
def GetActiveApp (env : HybridEnv) : HybridOutcome :=
  if env.initialized then
    if env.hasWindowDetector && env.windowAvailable then
      match getActiveAppFromWindow env with
      | Except.ok a => { result := Except.ok a, calls := [Call.windowQuery], logLines := [] }
      | Except.error wErr => fallbackToProcess env [Call.windowQuery] (some wErr)
    else fallbackToProcess env [] none
  else { result := Except.error "detector not initialized", calls := [], logLines := [] }

end Hybrid

/-! Concrete inputs used to instantiate the theorems below. -/

/-- An aliveness oracle under which both `sway` and `gnome-shell` are running. -/
def swayGnomeAlive : String → Bool :=
  fun p => p == "sway" || p == "gnome-shell"

/-- A Go map iteration order over `compositorEntries` that visits `gnome-shell`
first (Go map iteration order is unspecified, so this order is as possible as
any other). -/
def gnomeFirstOrder : List (String × String) :=
  [("gnome-shell", "gnome"), ("sway", "sway"), ("Hyprland", "hyprland"),
   ("wayfire", "wayfire"), ("river", "river"), ("kwin_wayland", "kde")]

/-- A plain interactive shell: no allow-list entry in name or command line, no
readable display variable in its environment. -/
def bashPlain : Process.ProcInfo :=
  ⟨101, "bash", "/bin/bash", none⟩

/-- A shell process whose command line mentions the allow-listed editor `vim`. -/
def bashRunningVim : Process.ProcInfo :=
  ⟨103, "bash", "bash -c vim", none⟩

/-- A browser process with a fresh high-CPU input-activity sample. -/
def firefoxProc : Process.ProcInfo :=
  ⟨102, "firefox", "/usr/bin/firefox", none⟩

/-- Scenario B of the spec: a table holding only `bash` and `firefox`, the
latter with a recent high-CPU sample; no enclosing terminal, no ancestors. -/
def scenarioEnvB : Process.ScanEnv :=
  { procs := [bashPlain, firefoxProc],
    myTerminalPID := 0,
    ancestorPIDs := [],
    activityAge := fun pid => if pid = 102 then some 0 else none,
    seenAge := fun _ => 0,
    windowTitleFor := fun _ => "Unknown" }

/-- A table holding only the `bash -c vim` shell process. -/
def shellOnlyEnv : Process.ScanEnv :=
  { procs := [bashRunningVim],
    myTerminalPID := 0,
    ancestorPIDs := [],
    activityAge := fun _ => none,
    seenAge := fun _ => 0,
    windowTitleFor := fun _ => "Unknown" }

/-- A one-browser table used to instantiate the process-path invariant. -/
def oneFirefoxEnv : Process.ScanEnv :=
  { procs := [firefoxProc],
    myTerminalPID := 0,
    ancestorPIDs := [],
    activityAge := fun _ => none,
    seenAge := fun _ => 0,
    windowTitleFor := fun _ => "Unknown" }

/-- A hybrid call in which the window path succeeds with a Firefox window. -/
def windowSuccessEnv : Hybrid.HybridEnv :=
  { initialized := true, hasWindowDetector := true, windowAvailable := true,
    windowQuery1 := Except.ok (some ⟨"firefox", "Mozilla Firefox", "firefox", "x11"⟩),
    windowQuery2 := Except.error "not queried",
    processResult := Except.error "not queried" }

/-- A hybrid call with no window detector and a successful process result. -/
def noWindowEnv : Hybrid.HybridEnv :=
  { initialized := true, hasWindowDetector := false, windowAvailable := false,
    windowQuery1 := Except.error "no window detector",
    windowQuery2 := Except.error "no window detector",
    processResult := Except.ok ⟨"firefox", "Unknown", "firefox", 102, 1, "process-based"⟩ }

/-- A hybrid call in which step 1 fails (nil window) but the process result
succeeds and the re-queried window matches it by application name. -/
def enhanceEnv : Hybrid.HybridEnv :=
  { initialized := true, hasWindowDetector := true, windowAvailable := true,
    windowQuery1 := Except.ok none,
    windowQuery2 := Except.ok (some ⟨"firefox", "Mozilla Firefox", "firefox", "x11"⟩),
    processResult := Except.ok ⟨"firefox", "Unknown", "firefox", 102, 1, "process-based"⟩ }

/-- A hybrid call in which the window query errors and the process detector
also fails. -/
def bothFailEnvA : Hybrid.HybridEnv :=
  { initialized := true, hasWindowDetector := true, windowAvailable := true,
    windowQuery1 := Except.error "window boom A",
    windowQuery2 := Except.error "window boom A",
    processResult := Except.error "process boom A" }

/-- Like `bothFailEnvA` with different underlying failure reasons. -/
def bothFailEnvB : Hybrid.HybridEnv :=
  { initialized := true, hasWindowDetector := true, windowAvailable := true,
    windowQuery1 := Except.error "window boom B",
    windowQuery2 := Except.error "window boom B",
    processResult := Except.error "process boom B" }

/-! Helper lemmas shared by the claim theorems. -/

/-- Splitting on a character that does not occur returns the whole input as the
single part. -/
theorem goSplitChar_of_not_mem (c : Char) (l : List Char) (h : c ∉ l) :
    goSplitChar c l = [l] := by
  induction l with
  | nil => rfl
  | cons x xs ih =>
    have hx : ¬ x = c := fun hxc => h (hxc ▸ List.mem_cons_self x xs)
    have hxs : c ∉ xs := fun hm => h (List.mem_cons_of_mem x hm)
    unfold goSplitChar
    rw [if_neg hx, ih hxs]

/-- The recent-activity term is non-negative. -/
theorem activityBonus_nonneg (a : Option ℚ) : 0 ≤ Process.activityBonus a := by
  cases a with
  | none => simp [Process.activityBonus]
  | some t =>
    simp only [Process.activityBonus]
    split_ifs <;> norm_num

/-- The recent-activity term is at most `0.5`. -/
theorem activityBonus_le_half (a : Option ℚ) : Process.activityBonus a ≤ 1/2 := by
  cases a with
  | none => simp [Process.activityBonus]
  | some t =>
    simp only [Process.activityBonus]
    split_ifs <;> norm_num

/-! Claim theorems. -/

/-- C6: every `IdleState` produced by a detector's `GetIdleInfo` satisfies
`isIdle = (idleSeconds > 300)` with a strictly-greater-than comparison at the
default threshold 300: the x11 probe sets `isIdle` exactly when the idle time
exceeds 300 (so 301 s is idle and exactly 300 s is not), and the wayland probe
satisfies the same invariant over its (always-zero) idle time. -/
theorem getIdleInfo_threshold_strict :
    (∀ (t : Int) (l : Bool), (X11.GetIdleInfo t l).isIdle = decide (t > 300))
    ∧ (X11.GetIdleInfo 301 false).isIdle = true
    ∧ (X11.GetIdleInfo 300 false).isIdle = false
    ∧ ∀ (c : String) (l : Bool),
        (Wayland.GetIdleInfo c l).isIdle = decide ((Wayland.GetIdleInfo c l).idleTime > 300) := by
  refine ⟨fun t l => rfl, by decide, by decide, fun c l => rfl⟩

/-- C4 (amended): compositor auto-detection probes the compositor table in the
(unspecified) Go map iteration order it is handed; whatever that order is, the
first entry whose process is alive determines the detected compositor, with
`"unknown"` when none is alive. No fixed sway-before-gnome-shell priority is
guaranteed (see the counterexample). -/
theorem detectCompositor_first_alive (order : List (String × String)) (alive : String → Bool) :
    Wayland.detectCompositor order alive
      = (((order.find? fun e => alive e.1).map Prod.snd).getD "unknown") := by
  induction order with
  | nil => rfl
  | cons e rest ih =>
    unfold Wayland.detectCompositor
    by_cases h : alive e.1
    · have hf : List.find? (fun x => alive x.1) (e :: rest) = some e :=
        List.find?_cons_of_pos rest h
      rw [if_pos h, hf]
      rfl
    · have hf : List.find? (fun x => alive x.1) (e :: rest)
          = List.find? (fun x => alive x.1) rest :=
        List.find?_cons_of_neg rest (by simpa using h)
      rw [if_neg h, hf]
      exact ih

/-- C4 counterexample: with both `sway` and `gnome-shell` alive, two valid Go
map iteration orders over the very same compositor table (both are permutations
of its entries) make `detectCompositor` return different compositors, so no
fixed sway-first priority order exists. -/
theorem detectCompositor_order_counterexample :
    List.Perm Wayland.compositorEntries Wayland.compositorEntries
    ∧ List.Perm gnomeFirstOrder Wayland.compositorEntries
    ∧ Wayland.detectCompositor Wayland.compositorEntries swayGnomeAlive = "sway"
    ∧ Wayland.detectCompositor gnomeFirstOrder swayGnomeAlive = "gnome"
    ∧ "sway" ≠ "gnome" := by
  exact ⟨by decide, by decide, by decide, by decide, by decide⟩

/-- C7: both `parseWMClass` implementations (x11 and wayland) extract
`"ClassName"` — the last comma-separated quoted token — from the well-formed
input `CLASS(STRING) = "Instance", "ClassName"`, and return the empty string on
every input containing no `=`; as total Lean functions they can never error. -/
theorem parseWMClass_round_trip :
    X11.parseWMClass "CLASS(STRING) = \"Instance\", \"ClassName\"" = "ClassName"
    ∧ Wayland.parseWMClass "CLASS(STRING) = \"Instance\", \"ClassName\"" = "ClassName"
    ∧ ∀ s : String, '=' ∉ s.data →
        X11.parseWMClass s = "" ∧ Wayland.parseWMClass s = "" := by
  refine ⟨by decide, by decide, fun s h => ⟨?_, ?_⟩⟩
  · unfold X11.parseWMClass X11.parseWMClassCore
    rw [goSplitChar_of_not_mem '=' s.data h]
  · unfold Wayland.parseWMClass Wayland.parseWMClassCore
    rw [if_neg (by simpa using h)]

/-- C7 witness: the no-`=` branch applied to a concrete malformed input. -/
theorem parseWMClass_round_trip_witness :
    X11.parseWMClass "no equals sign here" = ""
    ∧ Wayland.parseWMClass "no equals sign here" = "" :=
  parseWMClass_round_trip.2.2 "no equals sign here" (by decide)

/-- C5: in the candidate scoring of `scoreProcesses` (ranking is descending by
score), with the base and activity-derived terms identical, the ancestor
candidate's score strictly exceeds the non-ancestor's and the candidate is
placed first by the descending sort, an enclosing-terminal candidate's score
strictly exceeds both whatever its own activity terms, and each bonus (`+10`,
`+5`) strictly exceeds the maximum attainable sum `0.3 + 0.5 + 0.2` of the
base, activity and freshness terms. -/
theorem candidateScore_bonus_dominance (act actT : Option ℚ) (s1 s2 sT : ℚ) (ancT : Bool) :
    Process.candidateScore false true act s1 > Process.candidateScore false false act s2
    ∧ Process.candidateScore true ancT actT sT > Process.candidateScore false true act s1
    ∧ (∀ pA pB : Process.ProcInfo,
        Process.sortScoredDesc
          [(pB, Process.candidateScore false false act s2),
           (pA, Process.candidateScore false true act s1)]
          = [(pA, Process.candidateScore false true act s1),
             (pB, Process.candidateScore false false act s2)])
    ∧ (10 : ℚ) > 3/10 + 1/2 + 1/5 ∧ (5 : ℚ) > 3/10 + 1/2 + 1/5 := by
  have h1 : Process.candidateScore false true act s1 > Process.candidateScore false false act s2 := by
    unfold Process.candidateScore
    simp only [Bool.false_eq_true, if_false, if_true]
    split_ifs <;> linarith
  refine ⟨h1, ?_, ?_, by norm_num, by norm_num⟩
  · unfold Process.candidateScore
    cases ancT <;>
      simp only [Bool.false_eq_true, if_false, if_true] <;>
      split_ifs <;>
      linarith [activityBonus_nonneg act, activityBonus_le_half act,
        activityBonus_nonneg actT, activityBonus_le_half actT]
  · intro pA pB
    have hnot : ¬ (Process.candidateScore false true act s1
        < Process.candidateScore false false act s2) := lt_asymm h1
    simp only [Process.sortScoredDesc, Process.insertScored]
    rw [if_neg hnot]

/-- C10: every successful result of the process detector's `GetActiveApp` has
`AppName` equal to `ProcessName` — both are the top candidate's short command
name. -/
theorem process_appName_eq_processName (env : Process.ScanEnv) (r : AppInfo)
    (h : Process.GetActiveApp env = Except.ok r) : r.appName = r.processName := by
  simp only [Process.GetActiveApp] at h
  split at h
  · exact absurd h (by simp)
  · injection h with h
    subst h
    rfl

/-- C10 witness: the invariant instantiated on a one-browser process table. -/
theorem process_appName_eq_processName_witness :
    (AppInfo.mk "firefox" "Unknown" "firefox" 102
        (Process.scoreProc oneFirefoxEnv 102) "process-based").appName
    = (AppInfo.mk "firefox" "Unknown" "firefox" 102
        (Process.scoreProc oneFirefoxEnv 102) "process-based").processName :=
  process_appName_eq_processName oneFirefoxEnv _ (by rfl)

/-- C3 counterexample: `isGUIApp` has no deny-list, so deny-list membership
cannot take precedence over an allow-list match — a `bash` shell whose command
line contains the allow-listed editor name `vim` is classified as a GUI
candidate, and on a table containing only that shell the process detector's
result names `bash` itself. -/
theorem isGUIApp_no_deny_list_counterexample :
    Process.isGUIApp Process.getCommonGUIApps bashRunningVim = true
    ∧ (Process.GetActiveApp shellOnlyEnv).map AppInfo.appName = Except.ok "bash" :=
  ⟨by decide, by rfl⟩

/-- C3 (amended): classification has no deny-list — it is allow-list name or
command-line containment, or else a display-session variable in the process
environment. In a table containing only a plain `bash` (matching no allow-list
entry, with no readable display variable) and `firefox`, `bash` is not a
scoring candidate because it matches nothing, and the detector's result names
`firefox`; but a shell whose environment does carry `DISPLAY=` is a candidate
via the environment path. -/
theorem scenario_b_amended :
    Process.isGUIApp Process.getCommonGUIApps bashPlain = false
    ∧ scenarioEnvB.procs.filter (fun p => Process.isGUIApp Process.getCommonGUIApps p)
        = [firefoxProc]
    ∧ (Process.GetActiveApp scenarioEnvB).map AppInfo.appName = Except.ok "firefox"
    ∧ Process.isGUIApp Process.getCommonGUIApps ⟨101, "bash", "/bin/bash", some "DISPLAY=:0"⟩
        = true :=
  ⟨by decide, by decide, by rfl, by decide⟩

/-- Helper for the fallback half: it always adds exactly one process-detector
invocation to the trace. -/
theorem fallbackToProcess_count (env : Hybrid.HybridEnv) (calls0 : List Hybrid.Call)
    (werr : Option String) :
    ((Hybrid.fallbackToProcess env calls0 werr).calls).count Hybrid.Call.processQuery
      = calls0.count Hybrid.Call.processQuery + 1 := by
  have h2 : ([Hybrid.Call.processQuery, Hybrid.Call.windowQuery]).count
      Hybrid.Call.processQuery = 1 := by decide
  have h1 : ([Hybrid.Call.processQuery]).count Hybrid.Call.processQuery = 1 := by decide
  unfold Hybrid.fallbackToProcess
  split
  · split
    · simp [List.count_append, h2]
    · simp [List.count_append, h1]
  · simp [List.count_append, h1]

/-- Helper for the fallback half: whenever it returns an error value, that value
is the fixed string, independent of the underlying failure reasons. -/
theorem fallbackToProcess_error_fixed (env : Hybrid.HybridEnv) (calls0 : List Hybrid.Call)
    (werr : Option String) (e : String)
    (h : (Hybrid.fallbackToProcess env calls0 werr).result = Except.error e) :
    e = "all detection methods failed" := by
  unfold Hybrid.fallbackToProcess at h
  split at h
  · split at h <;> simp at h
  · simp at h
    exact h.symm

/-- Helper for the fallback half: on a successful process result and an
existing window detector object, the returned value is the enhanced result. -/
theorem fallbackToProcess_result_ok (env : Hybrid.HybridEnv) (calls0 : List Hybrid.Call)
    (werr : Option String) (p : AppInfo)
    (hp : env.processResult = Except.ok p) (hwd : env.hasWindowDetector = true) :
    (Hybrid.fallbackToProcess env calls0 werr).result
      = Except.ok (Hybrid.enhanceResult env.windowQuery2 p) := by
  unfold Hybrid.fallbackToProcess
  rw [hp]
  simp [hwd]

/-- C1: when the window detector exists, reports available, and its focused
window carries a non-empty, non-"Unknown" application name, the hybrid
resolver's `GetActiveApp` returns that window's data with confidence `1.0` and
detection method `"window"`, and never invokes the process detector. -/
theorem hybrid_window_success_terminal (env : Hybrid.HybridEnv) (w : WindowInfo)
    (hinit : env.initialized = true) (hwd : env.hasWindowDetector = true)
    (hav : env.windowAvailable = true)
    (hq : env.windowQuery1 = Except.ok (some w))
    (hne : w.appName ≠ "") (hnu : w.appName ≠ "Unknown") :
    (Hybrid.GetActiveApp env).result
      = Except.ok (AppInfo.mk w.appName w.windowTitle w.processName 0 1 "window")
    ∧ ((Hybrid.GetActiveApp env).calls).count Hybrid.Call.processQuery = 0 := by
  have hwin : Hybrid.getActiveAppFromWindow env
      = Except.ok (AppInfo.mk w.appName w.windowTitle w.processName 0 1 "window") := by
    simp [Hybrid.getActiveAppFromWindow, hq, hne, hnu]
  constructor <;>
    simp [Hybrid.GetActiveApp, hinit, hwd, hav, hwin, List.count_cons]
  decide

/-- C1 witness: a concrete window-path success. -/
theorem hybrid_window_success_terminal_witness :
    (Hybrid.GetActiveApp windowSuccessEnv).result
      = Except.ok (AppInfo.mk "firefox" "Mozilla Firefox" "firefox" 0 1 "window")
    ∧ ((Hybrid.GetActiveApp windowSuccessEnv).calls).count Hybrid.Call.processQuery = 0 :=
  hybrid_window_success_terminal windowSuccessEnv
    ⟨"firefox", "Mozilla Firefox", "firefox", "x11"⟩ rfl rfl rfl rfl
    (by decide) (by decide)

/-- C2: whenever the window strategy is absent, unavailable, or its path errors
(which covers query errors and nil/empty/"Unknown" names), the hybrid
resolver invokes the process detector's `GetActiveApp` exactly once in that
call. -/
theorem hybrid_fallback_exactly_once (env : Hybrid.HybridEnv)
    (hinit : env.initialized = true)
    (h : env.hasWindowDetector = false ∨ env.windowAvailable = false
        ∨ ∃ e, Hybrid.getActiveAppFromWindow env = Except.error e) :
    ((Hybrid.GetActiveApp env).calls).count Hybrid.Call.processQuery = 1 := by
  have hwq : ([Hybrid.Call.windowQuery]).count Hybrid.Call.processQuery = 0 := by decide
  unfold Hybrid.GetActiveApp
  rw [hinit]
  simp only [if_true]
  by_cases hb : env.hasWindowDetector && env.windowAvailable
  · rw [if_pos hb]
    rcases h with h | h | ⟨e, he⟩
    · rw [h] at hb
      simp at hb
    · rw [h] at hb
      simp at hb
    · rw [he]
      rw [fallbackToProcess_count, hwq]
  · rw [if_neg hb]
    rw [fallbackToProcess_count]
    simp

/-- C2 witness: a call with no window detector invokes the fallback once. -/
theorem hybrid_fallback_exactly_once_witness :
    ((Hybrid.GetActiveApp noWindowEnv).calls).count Hybrid.Call.processQuery = 1 :=
  hybrid_fallback_exactly_once noWindowEnv rfl (Or.inl rfl)

/-- C8 counterexample: the error value returned when both paths fail is the
fixed string `"all detection methods failed"`; two calls whose underlying
window/process failure reasons differ return the identical error value, and
that value does not contain either underlying reason — so the returned error
does not carry the failure reasons (they are only logged). -/
theorem hybrid_error_reasons_counterexample :
    (Hybrid.GetActiveApp bothFailEnvA).result = Except.error "all detection methods failed"
    ∧ (Hybrid.GetActiveApp bothFailEnvB).result = (Hybrid.GetActiveApp bothFailEnvA).result
    ∧ bothFailEnvA.processResult = Except.error "process boom A"
    ∧ bothFailEnvB.processResult = Except.error "process boom B"
    ∧ "process boom A" ≠ "process boom B"
    ∧ goContains "all detection methods failed" "window boom A" = false
    ∧ goContains "all detection methods failed" "process boom A" = false :=
  ⟨rfl, rfl, rfl, rfl, by decide, by decide, by decide⟩

/-- C8 (amended): when both the window path and the process fallback fail, the
hybrid resolver returns the fixed error `"all detection methods failed"` while
both underlying failure reasons are emitted to the log (not carried in the
returned error); and for every initialized call, that fixed string is the only
error value `GetActiveApp` can return. -/
theorem hybrid_all_methods_failed (env : Hybrid.HybridEnv) (wErr pErr : String)
    (hinit : env.initialized = true) (hwd : env.hasWindowDetector = true)
    (hav : env.windowAvailable = true)
    (hwin : Hybrid.getActiveAppFromWindow env = Except.error wErr)
    (hproc : env.processResult = Except.error pErr) :
    (Hybrid.GetActiveApp env).result = Except.error "all detection methods failed"
    ∧ (Hybrid.GetActiveApp env).logLines
        = ["All detection methods failed - Window: " ++ wErr ++ ", Process: " ++ pErr]
    ∧ ∀ (envAny : Hybrid.HybridEnv) (e : String), envAny.initialized = true →
        (Hybrid.GetActiveApp envAny).result = Except.error e →
        e = "all detection methods failed" := by
  have hmain : Hybrid.GetActiveApp env
      = Hybrid.fallbackToProcess env [Hybrid.Call.windowQuery] (some wErr) := by
    simp [Hybrid.GetActiveApp, hinit, hwd, hav, hwin]
  refine ⟨?_, ?_, ?_⟩
  · rw [hmain]
    unfold Hybrid.fallbackToProcess
    rw [hproc]
  · rw [hmain]
    unfold Hybrid.fallbackToProcess
    rw [hproc]
  · intro envAny e hinitAny hres
    unfold Hybrid.GetActiveApp at hres
    rw [hinitAny] at hres
    simp only [if_true] at hres
    by_cases hb : envAny.hasWindowDetector && envAny.windowAvailable
    · rw [if_pos hb] at hres
      rcases hw : Hybrid.getActiveAppFromWindow envAny with e0 | a0
      · rw [hw] at hres
        exact fallbackToProcess_error_fixed envAny [Hybrid.Call.windowQuery] (some e0) e hres
      · rw [hw] at hres
        simp at hres
    · rw [if_neg hb] at hres
      exact fallbackToProcess_error_fixed envAny [] none e hres

/-- C8 witness: the amended behaviour on a concrete both-paths-fail call. -/
theorem hybrid_all_methods_failed_witness :
    (Hybrid.GetActiveApp bothFailEnvA).result = Except.error "all detection methods failed"
    ∧ (Hybrid.GetActiveApp bothFailEnvA).logLines
        = ["All detection methods failed - Window: window boom A, Process: process boom A"] :=
  ⟨(hybrid_all_methods_failed bothFailEnvA "window boom A" "process boom A"
      rfl rfl rfl rfl rfl).1,
   (hybrid_all_methods_failed bothFailEnvA "window boom A" "process boom A"
      rfl rfl rfl rfl rfl).2.1⟩

/-- Helper: the enhancement step on a successfully re-queried window. -/
theorem enhanceResult_ok_some (w : WindowInfo) (p : AppInfo) :
    Hybrid.enhanceResult (Except.ok (some w)) p
      = if w.appName = p.appName ∨ w.processName = p.processName then
          AppInfo.mk p.appName w.windowTitle p.processName p.pid (9/10) "hybrid"
        else p := rfl

/-- Helper: the enhancement step on a failed re-query leaves the result alone. -/
theorem enhanceResult_error (e : String) (p : AppInfo) :
    Hybrid.enhanceResult (Except.error e) p = p := rfl

/-- Helper: the enhancement step on a nil window leaves the result alone. -/
theorem enhanceResult_ok_none (p : AppInfo) :
    Hybrid.enhanceResult (Except.ok none) p = p := rfl

/-- C9: when the fallback runs (window path skipped-as-unavailable or failed),
the process result succeeds, and a window detector object exists, the resolver
re-queries `GetFocusedWindow` independently; on a textual match (window app
name equals the result's app name, or window process name equals the result's
process name) it overwrites the window title, sets confidence `0.9` and method
`"hybrid"`; with no match, a query error, or a nil window, the process result
is returned unmodified. -/
theorem hybrid_enhancement_spec (env : Hybrid.HybridEnv) (p : AppInfo)
    (hinit : env.initialized = true) (hwd : env.hasWindowDetector = true)
    (hreach : env.windowAvailable = false
        ∨ ∃ e, Hybrid.getActiveAppFromWindow env = Except.error e)
    (hp : env.processResult = Except.ok p) :
    (∀ w : WindowInfo, env.windowQuery2 = Except.ok (some w) →
        (w.appName = p.appName ∨ w.processName = p.processName) →
        (Hybrid.GetActiveApp env).result
          = Except.ok (AppInfo.mk p.appName w.windowTitle p.processName p.pid (9/10) "hybrid"))
    ∧ (∀ w : WindowInfo, env.windowQuery2 = Except.ok (some w) →
        w.appName ≠ p.appName → w.processName ≠ p.processName →
        (Hybrid.GetActiveApp env).result = Except.ok p)
    ∧ (∀ e, env.windowQuery2 = Except.error e →
        (Hybrid.GetActiveApp env).result = Except.ok p)
    ∧ (env.windowQuery2 = Except.ok none →
        (Hybrid.GetActiveApp env).result = Except.ok p) := by
  have hmain : (Hybrid.GetActiveApp env).result
      = Except.ok (Hybrid.enhanceResult env.windowQuery2 p) := by
    rcases hreach with h | ⟨e, he⟩
    · have hb : (env.hasWindowDetector && env.windowAvailable) = false := by
        rw [h, Bool.and_false]
      unfold Hybrid.GetActiveApp
      rw [hinit]
      simp only [if_true, hb, Bool.false_eq_true, if_false]
      exact fallbackToProcess_result_ok env [] none p hp hwd
    · by_cases hb : env.hasWindowDetector && env.windowAvailable
      · unfold Hybrid.GetActiveApp
        rw [hinit]
        simp only [if_true]
        rw [if_pos hb, he]
        exact fallbackToProcess_result_ok env [Hybrid.Call.windowQuery] (some e) p hp hwd
      · unfold Hybrid.GetActiveApp
        rw [hinit]
        simp only [if_true]
        rw [if_neg hb]
        exact fallbackToProcess_result_ok env [] none p hp hwd
  refine ⟨?_, ?_, ?_, ?_⟩
  · intro w hq2 hmatch
    rw [hmain, hq2, enhanceResult_ok_some, if_pos hmatch]
  · intro w hq2 hna hnp
    rw [hmain, hq2, enhanceResult_ok_some, if_neg (by simp [hna, hnp])]
  · intro e hq2
    rw [hmain, hq2, enhanceResult_error]
  · intro hq2
    rw [hmain, hq2, enhanceResult_ok_none]

/-- C9 witness: a concrete call where step 1 fails on a nil window, the process
result succeeds, and the re-queried window matches by application name. -/
theorem hybrid_enhancement_spec_witness :
    (Hybrid.GetActiveApp enhanceEnv).result
      = Except.ok (AppInfo.mk "firefox" "Mozilla Firefox" "firefox" 102 (9/10) "hybrid") :=
  (hybrid_enhancement_spec enhanceEnv
      (AppInfo.mk "firefox" "Unknown" "firefox" 102 1 "process-based") rfl rfl
      (Or.inr ⟨"no valid window information", rfl⟩) rfl).1
    ⟨"firefox", "Mozilla Firefox", "firefox", "x11"⟩ rfl (Or.inl rfl)
